import Mathlib

/-!
Shallow embedding of the configuration-resolution core of stellar-galexie
(`src/internal/config.go`): export modes, datastore configuration validation,
TOML network-preset overlay, ledger-range validation and boundary alignment,
and the captive-core configuration builder.

Go `uint32` values are modelled as `Nat`; the one place the source can wrap
(the safety-ceiling sum `latest + 2 * checkpointFrequency`) is reduced
modulo `2 ^ 32` explicitly.  Fallible operations return `Except`/`Option`,
and the mutation of the `Config` receiver is modelled by explicit state
passing: each operation returns the updated `Config`.
-/

namespace Galexie

/-- Export mode (`Mode` in the source): `scanFill` exports a closed bounded
range once, `append` continuously extends an existing dataset. -/
inductive Mode where
  | scanFill
  | append
deriving DecidableEq, Repr

/-- Partitioning schema of the datastore (`DataStoreSchema`). -/
structure DataStoreSchema where
  ledgersPerFile : Nat
  filesPerPartition : Nat
deriving DecidableEq, Repr

/-- Datastore configuration (`DataStoreConfig`): backend kind, free-form
string parameters (the Go `map[string]string` is modelled as an association
list) and the partitioning schema. -/
structure DataStoreConfig where
  dsType : String
  params : List (String × String)
  schema : DataStoreSchema
deriving DecidableEq, Repr

/-- Errors of `DataStoreConfig.Validate`, one constructor per distinct
`errors.New` / `fmt.Errorf` site in the source. -/
inductive ValidationError where
  | missingKind
  | missingParameter (name : String)
  | unsupportedKind (kind : String)
  | invalidSchema (field : String)
deriving DecidableEq, Repr

/-- `DataStoreConfig.Validate` from the source: empty kind is rejected first,
then the kind switch checks the kind-specific required parameter (`GCS` needs
`destination_bucket_path`, `S3` needs `bucket_name`, `FS` needs `base_path`,
anything else is unsupported), then both schema fields must be non-zero.
`none` is the nil error. -/
def DataStoreConfig.Validate (c : DataStoreConfig) : Option ValidationError :=
  if c.dsType = "" then some .missingKind
  else
    let kindCheck : Option ValidationError :=
      if c.dsType = "GCS" then
        if (c.params.lookup "destination_bucket_path").isSome then none
        else some (.missingParameter "destination_bucket_path")
      else if c.dsType = "S3" then
        if (c.params.lookup "bucket_name").isSome then none
        else some (.missingParameter "bucket_name")
      else if c.dsType = "FS" then
        if (c.params.lookup "base_path").isSome then none
        else some (.missingParameter "base_path")
      else some (.unsupportedKind c.dsType)
    match kindCheck with
    | some e => some e
    | none =>
      if c.schema.ledgersPerFile = 0 then some (.invalidSchema "ledgers_per_file")
      else if c.schema.filesPerPartition = 0 then some (.invalidSchema "files_per_partition")
      else none

/-- The kind-specific required parameter of the kind switch in
`DataStoreConfig.Validate`; `none` for a kind outside the known set. -/
def requiredParamName : String → Option String :=
  fun t =>
    if t = "GCS" then some "destination_bucket_path"
    else if t = "S3" then some "bucket_name"
    else if t = "FS" then some "base_path"
    else none

/-- Network sub-configuration (`StellarCoreConfig`). -/
structure StellarCoreConfig where
  network : String
  networkPassphrase : String
  historyArchiveUrls : List String
  stellarCoreBinaryPath : String
  captiveCoreTomlPath : String
  checkpointFrequency : Nat
  storagePath : String
deriving DecidableEq, Repr

/-- The whole configuration record (`Config`).  The serialized captive-core
toml payload (Go `[]byte`) is modelled as a `String`; the core-version
callback is passed explicitly to the operations that use it, keeping the
state decidable. -/
structure Config where
  adminPort : Nat
  dataStoreConfig : DataStoreConfig
  stellarCoreConfig : StellarCoreConfig
  userAgent : String
  startLedger : Nat
  endLedger : Nat
  mode : Mode
  coreVersion : String
  serializedCaptiveCoreToml : String
deriving DecidableEq, Repr

def PubnetName : String := "pubnet"

def TestnetName : String := "testnet"

def DefaultUserAgent : String := "galexie"

/-- Passphrase of the public network (constant of the external
`stellar/go/network` package). -/
def PublicNetworkPassphrase : String := "Public Global Stellar Network ; September 2015"

/-- Passphrase of the test network (constant of the external
`stellar/go/network` package). -/
def TestNetworkPassphrase : String := "Test SDF Network ; September 2015"

/-- History-archive URLs of the public network (external constant). -/
def PublicNetworkHistoryArchiveUrls : List String :=
  ["https://history.stellar.org/prd/core-live/core_live_001",
   "https://history.stellar.org/prd/core-live/core_live_002",
   "https://history.stellar.org/prd/core-live/core_live_003"]

/-- History-archive URLs of the test network (external constant). -/
def TestNetworkHistoryArchiveUrls : List String :=
  ["https://history.stellar.org/prd/core-testnet/core_testnet_001",
   "https://history.stellar.org/prd/core-testnet/core_testnet_002",
   "https://history.stellar.org/prd/core-testnet/core_testnet_003"]

/-- Default captive-core configuration payload for pubnet (embedded byte
blob of the external ledgerbackend package, modelled as an abstract marker
string). -/
def PubnetDefaultConfig : String := "ledgerbackend:pubnet-default-captive-core-toml"

/-- Default captive-core configuration payload for testnet (abstract marker
for the external embedded blob). -/
def TestnetDefaultConfig : String := "ledgerbackend:testnet-default-captive-core-toml"

/-- Errors of `processToml` that the overlay logic itself can produce (the
load/unmarshal failures of the external TOML library happen before the
modelled stage and are out of scope). -/
inductive ConfigError where
  | incompleteNetworkConfig
  | invalidNetwork
  | configFileUnreadable
deriving DecidableEq, Repr

/-- `processToml` from the source, starting after the external TOML
unmarshal: `config` is the already-parsed document and `readFile` models
`os.ReadFile` (`none` = read failure).  Defaults the user agent, rejects a
document with no network name and a missing passphrase / archive-URL list /
captive-core toml path, overlays the named preset's passphrase, archive URLs
and default captive-core payload (an unknown network name is an error), lets
explicit document values win over the preset, and finally replaces the
payload with the file contents when a toml path is supplied. -/
def processToml (config : Config) (readFile : String → Option String) :
    Except ConfigError Config :=
  let config :=
    if config.userAgent = "" then { config with userAgent := DefaultUserAgent } else config
  if config.stellarCoreConfig.network = "" ∧
      (config.stellarCoreConfig.historyArchiveUrls.length = 0 ∨
       config.stellarCoreConfig.networkPassphrase = "" ∨
       config.stellarCoreConfig.captiveCoreTomlPath = "") then
    .error .incompleteNetworkConfig
  else
    let overlay : Option (String × List String × Config) :=
      if config.stellarCoreConfig.network = "" then some ("", [], config)
      else if config.stellarCoreConfig.network = PubnetName then
        some (PublicNetworkPassphrase, PublicNetworkHistoryArchiveUrls,
              { config with serializedCaptiveCoreToml := PubnetDefaultConfig })
      else if config.stellarCoreConfig.network = TestnetName then
        some (TestNetworkPassphrase, TestNetworkHistoryArchiveUrls,
              { config with serializedCaptiveCoreToml := TestnetDefaultConfig })
      else none
    match overlay with
    | none => .error .invalidNetwork
    | some (networkPassPhrase, networkArchiveUrls, config) =>
      let config :=
        if config.stellarCoreConfig.networkPassphrase = "" then
          { config with stellarCoreConfig :=
              { config.stellarCoreConfig with networkPassphrase := networkPassPhrase } }
        else config
      let config :=
        if config.stellarCoreConfig.historyArchiveUrls.length < 1 then
          { config with stellarCoreConfig :=
              { config.stellarCoreConfig with historyArchiveUrls := networkArchiveUrls } }
        else config
      if config.stellarCoreConfig.captiveCoreTomlPath ≠ "" then
        match readFile config.stellarCoreConfig.captiveCoreTomlPath with
        | some contents => .ok { config with serializedCaptiveCoreToml := contents }
        | none => .error .configFileUnreadable
      else .ok config

/-- Modelled from the spec: `DataStoreSchema.GetSequenceNumberStartBoundary`
lives in the external `withObsrvr/stellar-datastore` module, whose source is
not part of this repository; the spec says the start ledger is rounded
**down** to the nearest ledgers-per-file boundary (with ledgersPerFile = 10,
23 aligns down to 20). -/
def DataStoreSchema.GetSequenceNumberStartBoundary (s : DataStoreSchema) (seq : Nat) : Nat :=
  seq / s.ledgersPerFile * s.ledgersPerFile

/-- Modelled from the spec: `DataStoreSchema.GetSequenceNumberEndBoundary`
lives in the external `withObsrvr/stellar-datastore` module, whose source is
not part of this repository; the spec says a non-zero end ledger is rounded
**up** to the nearest ledgers-per-file boundary (with ledgersPerFile = 10,
57 aligns up to 60), and that re-aligning an aligned value is a no-op. -/
def DataStoreSchema.GetSequenceNumberEndBoundary (s : DataStoreSchema) (seq : Nat) : Nat :=
  (seq + s.ledgersPerFile - 1) / s.ledgersPerFile * s.ledgersPerFile

/-- `adjustLedgerRange` from the source: align the start ledger down to the
ledgers-per-file boundary, then clamp it to a minimum of 2, and align a
non-zero end ledger up to the boundary. -/
def Config.adjustLedgerRange (config : Config) : Config :=
  let config :=
    { config with startLedger :=
        config.dataStoreConfig.schema.GetSequenceNumberStartBoundary config.startLedger }
  let config := { config with startLedger := max 2 config.startLedger }
  if config.endLedger ≠ 0 then
    { config with endLedger :=
        config.dataStoreConfig.schema.GetSequenceNumberEndBoundary config.endLedger }
  else config

/-- The history-archive oracle used by `ValidateAndSetLedgerRange`:
`GetLatestLedgerSequence` (`none` models the error return) and the
checkpoint frequency of the archive's checkpoint manager. -/
structure Archive where
  latestLedger : Option Nat
  checkpointFrequency : Nat
deriving DecidableEq, Repr

/-- Errors of `ValidateAndSetLedgerRange`, one constructor per distinct
error return site in the source. -/
inductive RangeError where
  | startTooLow
  | unboundedNotAllowed
  | endNotAfterStart
  | networkStateUnavailable
  | startBeyondNetwork
  | endBeyondNetwork
deriving DecidableEq, Repr

/-- Modulus of Go `uint32` arithmetic. -/
def u32Mod : Nat := 4294967296

/-- `ValidateAndSetLedgerRange` from the source, with the mutation of the
receiver made explicit: the result pairs the (possibly adjusted) config with
the error (`none` = success).  Checks run in source order: start below 2,
unbounded end under scan-and-fill, end not after start, archive failure,
then start/end beyond the safety ceiling `latest + checkpointFrequency * 2`
(computed in `uint32` arithmetic, hence the `% u32Mod`); only when every
check passes is `adjustLedgerRange` applied. -/
def Config.ValidateAndSetLedgerRange (config : Config) (archive : Archive) :
    Config × Option RangeError :=
  if config.startLedger < 2 then (config, some .startTooLow)
  else if config.mode = .scanFill ∧ config.endLedger = 0 then
    (config, some .unboundedNotAllowed)
  else if config.endLedger ≠ 0 ∧ config.endLedger ≤ config.startLedger then
    (config, some .endNotAfterStart)
  else
    match archive.latestLedger with
    | none => (config, some .networkStateUnavailable)
    | some latest =>
      let latestNetworkLedger := (latest + archive.checkpointFrequency * 2) % u32Mod
      if config.startLedger > latestNetworkLedger then (config, some .startBeyondNetwork)
      else if config.endLedger > latestNetworkLedger then (config, some .endBeyondNetwork)
      else (config.adjustLedgerRange, none)

/-- The captive-core configuration assembled by `GenerateCaptiveCoreConfig`
(only the fields the embedding can carry; the logger field is ambient). -/
structure CaptiveCoreConfig where
  binaryPath : String
  networkPassphrase : String
  historyArchiveUrls : List String
  checkpointFrequency : Nat
  toml : String
  userAgent : String
  useDB : Bool
  storagePath : String
deriving DecidableEq, Repr

/-- Errors of `GenerateCaptiveCoreConfig` (missing binary path, version
probe failure via `setCoreVersionInfo`, captive-core toml creation
failure). -/
inductive BuildError where
  | noBinaryPath
  | versionProbeFailed
  | tomlCreationFailed
deriving DecidableEq, Repr

/-- `historyarchive.DefaultCheckpointFrequency` of the external package. -/
def DefaultCheckpointFrequency : Nat := 64

/-- `GenerateCaptiveCoreConfig` from the source: fails when neither the
configured binary path nor the `coreBinFromPath` override is set, otherwise
installs the override when the configured path is empty, probes the core
version (`coreBuildVersion`, `none` = probe failure), builds the captive-core
toml from the serialized payload (`makeToml`, modelling the external
`NewCaptiveCoreTomlFromData`; `none` = failure), and assembles the
`CaptiveCoreConfig` with the checkpoint frequency defaulting to
`DefaultCheckpointFrequency` when the configured one is zero.  The updated
`Config` is returned alongside, modelling the receiver mutation. -/
def Config.GenerateCaptiveCoreConfig (config : Config) (coreBinFromPath : String)
    (coreBuildVersion : String → Option String) (makeToml : String → Option String) :
    Except BuildError (Config × CaptiveCoreConfig) :=
  if config.stellarCoreConfig.stellarCoreBinaryPath = "" ∧ coreBinFromPath = "" then
    .error .noBinaryPath
  else
    let config :=
      if config.stellarCoreConfig.stellarCoreBinaryPath = "" then
        { config with stellarCoreConfig :=
            { config.stellarCoreConfig with stellarCoreBinaryPath := coreBinFromPath } }
      else config
    match coreBuildVersion config.stellarCoreConfig.stellarCoreBinaryPath with
    | none => .error .versionProbeFailed
    | some version =>
      let config := { config with coreVersion := version }
      match makeToml config.serializedCaptiveCoreToml with
      | none => .error .tomlCreationFailed
      | some captiveCoreToml =>
        let checkpointFrequency :=
          if config.stellarCoreConfig.checkpointFrequency > 0 then
            config.stellarCoreConfig.checkpointFrequency
          else DefaultCheckpointFrequency
        .ok (config,
          { binaryPath := config.stellarCoreConfig.stellarCoreBinaryPath
            networkPassphrase := config.stellarCoreConfig.networkPassphrase
            historyArchiveUrls := config.stellarCoreConfig.historyArchiveUrls
            checkpointFrequency := checkpointFrequency
            toml := captiveCoreToml
            userAgent := config.userAgent
            useDB := true
            storagePath := config.stellarCoreConfig.storagePath })

/-- `Resumable` from the source. -/
def Config.Resumable (config : Config) : Bool := config.mode = .append

/-! Concrete fixtures used by witnesses and counterexamples. -/

def exampleSchema : DataStoreSchema :=
  { ledgersPerFile := 10, filesPerPartition := 1 }

def exampleStoreConfig : DataStoreConfig :=
  { dsType := "FS", params := [("base_path", "/data")], schema := exampleSchema }

def exampleCoreConfig : StellarCoreConfig :=
  { network := "", networkPassphrase := "p", historyArchiveUrls := ["u"],
    stellarCoreBinaryPath := "", captiveCoreTomlPath := "t",
    checkpointFrequency := 0, storagePath := "" }

def exampleConfig : Config :=
  { adminPort := 0, dataStoreConfig := exampleStoreConfig,
    stellarCoreConfig := exampleCoreConfig, userAgent := "",
    startLedger := 23, endLedger := 57, mode := .scanFill,
    coreVersion := "", serializedCaptiveCoreToml := "" }

def exampleArchive : Archive :=
  { latestLedger := some 1000, checkpointFrequency := 64 }

/-! Arithmetic facts about the two boundary maps. -/

/-- Rounding down to a multiple of `d` and clamping to 2 is stable under a
second round-down-and-clamp. -/
lemma startAlign_stable (d x : Nat) :
    max 2 (max 2 (x / d * d) / d * d) = max 2 (x / d * d) := by
  rcases Nat.lt_or_ge (x / d * d) 2 with h | h
  · rw [Nat.max_eq_left (Nat.le_of_lt h)]
    exact Nat.max_eq_left (Nat.div_mul_le_self 2 d)
  · rw [Nat.max_eq_right h, Nat.div_mul_cancel (dvd_mul_left d (x / d)),
      Nat.max_eq_right h]

/-- Rounding a non-zero multiple of `d` up to a multiple of `d` is the
identity. -/
lemma endAlign_fixed (d b : Nat) (hdvd : d ∣ b) (hb : b ≠ 0) :
    (b + d - 1) / d * d = b := by
  obtain ⟨k, rfl⟩ := hdvd
  have hd : 0 < d := by
    rcases Nat.eq_zero_or_pos d with rfl | hd
    · simp at hb
    · exact hd
  have hrw : d * k + d - 1 = d - 1 + d * k := by omega
  rw [hrw, Nat.add_mul_div_left _ _ hd, Nat.div_eq_of_lt (by omega), Nat.zero_add,
    Nat.mul_comm]

/-- The start ledger produced by `adjustLedgerRange`. -/
lemma adjust_startLedger (config : Config) :
    config.adjustLedgerRange.startLedger =
      max 2 (config.startLedger / config.dataStoreConfig.schema.ledgersPerFile *
        config.dataStoreConfig.schema.ledgersPerFile) := by
  simp only [Config.adjustLedgerRange, DataStoreSchema.GetSequenceNumberStartBoundary]
  split <;> rfl

/-- The end ledger produced by `adjustLedgerRange`. -/
lemma adjust_endLedger (config : Config) :
    config.adjustLedgerRange.endLedger =
      if config.endLedger ≠ 0 then
        (config.endLedger + config.dataStoreConfig.schema.ledgersPerFile - 1) /
          config.dataStoreConfig.schema.ledgersPerFile *
          config.dataStoreConfig.schema.ledgersPerFile
      else config.endLedger := by
  simp only [Config.adjustLedgerRange, DataStoreSchema.GetSequenceNumberEndBoundary]
  split <;> simp_all

/-- `adjustLedgerRange` only writes the start and end ledger fields. -/
lemma adjust_frame (config : Config) :
    config.adjustLedgerRange.adminPort = config.adminPort ∧
    config.adjustLedgerRange.dataStoreConfig = config.dataStoreConfig ∧
    config.adjustLedgerRange.stellarCoreConfig = config.stellarCoreConfig ∧
    config.adjustLedgerRange.userAgent = config.userAgent ∧
    config.adjustLedgerRange.mode = config.mode ∧
    config.adjustLedgerRange.coreVersion = config.coreVersion ∧
    config.adjustLedgerRange.serializedCaptiveCoreToml =
      config.serializedCaptiveCoreToml := by
  simp only [Config.adjustLedgerRange]
  split <;> simp

/-- On success, `ValidateAndSetLedgerRange` returns the adjusted config. -/
lemma validate_ok_eq_adjust (config cfg' : Config) (archive : Archive)
    (h : config.ValidateAndSetLedgerRange archive = (cfg', none)) :
    cfg' = config.adjustLedgerRange := by
  unfold Config.ValidateAndSetLedgerRange at h
  rcases archive with ⟨lo, freq⟩
  split_ifs at h with h1 h2 h3
  · exact absurd (congrArg Prod.snd h) (by simp)
  · exact absurd (congrArg Prod.snd h) (by simp)
  · exact absurd (congrArg Prod.snd h) (by simp)
  · cases lo with
    | none => exact absurd (congrArg Prod.snd h) (by simp)
    | some latest =>
      dsimp only at h
      split_ifs at h with h4 h5
      · exact absurd (congrArg Prod.snd h) (by simp)
      · exact absurd (congrArg Prod.snd h) (by simp)
      · exact (congrArg Prod.fst h).symm

/-- C1: for every request that passes validation, the final start ledger
equals the requested start rounded down to the nearest ledgers-per-file
boundary and then clamped to a minimum of 2 (clamp applied strictly after
rounding), and the final end ledger equals the requested end rounded up to
the nearest ledgers-per-file boundary when the requested end is non-zero,
and stays 0 when it is 0. -/
theorem validateAndSetLedgerRange_aligns (config cfg' : Config) (archive : Archive)
    (h : config.ValidateAndSetLedgerRange archive = (cfg', none)) :
    cfg'.startLedger =
      max 2 (config.startLedger / config.dataStoreConfig.schema.ledgersPerFile *
        config.dataStoreConfig.schema.ledgersPerFile) ∧
    cfg'.endLedger =
      (if config.endLedger ≠ 0 then
        (config.endLedger + config.dataStoreConfig.schema.ledgersPerFile - 1) /
          config.dataStoreConfig.schema.ledgersPerFile *
          config.dataStoreConfig.schema.ledgersPerFile
      else 0) := by
  have hadj := validate_ok_eq_adjust config cfg' archive h
  subst hadj
  refine ⟨adjust_startLedger config, ?_⟩
  rw [adjust_endLedger config]
  split_ifs with he
  · rfl
  · omega

/-- Witness for C1: with ledgersPerFile = 10, a validated request with
requestedStart = 23 and requestedEnd = 57 yields finalStart = 20 and
finalEnd = 60. -/
theorem validateAndSetLedgerRange_aligns_witness :
    exampleConfig.ValidateAndSetLedgerRange exampleArchive =
      (exampleConfig.adjustLedgerRange, none) ∧
    exampleConfig.dataStoreConfig.schema.ledgersPerFile = 10 ∧
    exampleConfig.startLedger = 23 ∧ exampleConfig.endLedger = 57 ∧
    exampleConfig.adjustLedgerRange.startLedger = 20 ∧
    exampleConfig.adjustLedgerRange.endLedger = 60 := by
  have h := validateAndSetLedgerRange_aligns exampleConfig
    exampleConfig.adjustLedgerRange exampleArchive (by decide)
  exact ⟨by decide, rfl, rfl, rfl, h.1.trans (by decide), h.2.trans (by decide)⟩

/-- C2: the range alignment of `adjustLedgerRange` is idempotent — applying
it a second time to its own output returns that output unchanged. -/
theorem adjustLedgerRange_idem (config : Config) :
    config.adjustLedgerRange.adjustLedgerRange = config.adjustLedgerRange := by
  obtain ⟨ap, ds, sc, ua, s, e, m, cv, t⟩ := config
  simp only [Config.adjustLedgerRange, DataStoreSchema.GetSequenceNumberStartBoundary,
    DataStoreSchema.GetSequenceNumberEndBoundary]
  by_cases he : e = 0
  · subst he
    simp [startAlign_stable]
  · by_cases hb : (e + ds.schema.ledgersPerFile - 1) / ds.schema.ledgersPerFile *
        ds.schema.ledgersPerFile = 0
    · simp [he, hb, startAlign_stable]
    · have hend := endAlign_fixed ds.schema.ledgersPerFile
        ((e + ds.schema.ledgersPerFile - 1) / ds.schema.ledgersPerFile *
          ds.schema.ledgersPerFile) (dvd_mul_left _ _) hb
      simp [he, hb, startAlign_stable, hend]

/-- C3 (amended): for a request passing the local checks whose start also
does not exceed the safety ceiling `latest + 2 * checkpointFrequency`
(without the extra start-side condition the start-beyond-network check fires
first), range resolution fails with `endBeyondNetwork` iff the requested end
is non-zero and exceeds the ceiling. -/
theorem endBeyondNetwork_iff (config : Config) (archive : Archive) (latest : Nat)
    (h2 : 2 ≤ config.startLedger)
    (hmode : ¬(config.mode = Mode.scanFill ∧ config.endLedger = 0))
    (hafter : config.endLedger ≠ 0 → config.startLedger < config.endLedger)
    (hlatest : archive.latestLedger = some latest)
    (hov : latest + archive.checkpointFrequency * 2 < u32Mod)
    (hstart : config.startLedger ≤ latest + archive.checkpointFrequency * 2) :
    (config.ValidateAndSetLedgerRange archive).2 = some RangeError.endBeyondNetwork ↔
      (config.endLedger ≠ 0 ∧
        latest + archive.checkpointFrequency * 2 < config.endLedger) := by
  unfold Config.ValidateAndSetLedgerRange
  rcases archive with ⟨lo, freq⟩
  dsimp only at hlatest hov hstart ⊢
  subst hlatest
  rw [if_neg (by omega), if_neg hmode,
    if_neg (by rintro ⟨hne, hle⟩; exact absurd (hafter hne) (by omega))]
  dsimp only
  rw [Nat.mod_eq_of_lt hov]
  split_ifs with hs he
  · exact absurd hs (by omega)
  · exact iff_of_true rfl ⟨by omega, he⟩
  · exact iff_of_false (by simp) (by omega)

def c3Config : Config :=
  { exampleConfig with startLedger := 2, endLedger := 1129 }

/-- Witness for C3 (amended): with latest = 1000 and checkpointFrequency =
64, a requested end of 1129 fails with `endBeyondNetwork` and a requested
end of 1128 succeeds. -/
theorem endBeyondNetwork_iff_witness :
    (c3Config.ValidateAndSetLedgerRange exampleArchive).2 =
      some RangeError.endBeyondNetwork ∧
    ({ c3Config with endLedger := 1128 }.ValidateAndSetLedgerRange
      exampleArchive).2 = none := by
  constructor
  · exact (endBeyondNetwork_iff c3Config exampleArchive 1000 (by decide) (by decide)
      (by decide) (by decide) (by decide) (by decide)).mpr ⟨by decide, by decide⟩
  · decide

def c3BadConfig : Config :=
  { exampleConfig with startLedger := 2000, endLedger := 2500, mode := .append }

/-- Counterexample for C3 as stated: with latest = 1000 and
checkpointFrequency = 64, the request start = 2000, end = 2500 passes every
local check and its non-zero end exceeds the ceiling 1128, yet resolution
fails with `startBeyondNetwork`, not `endBeyondNetwork`. -/
theorem endBeyondNetwork_counterexample :
    2 ≤ c3BadConfig.startLedger ∧
    ¬(c3BadConfig.mode = Mode.scanFill ∧ c3BadConfig.endLedger = 0) ∧
    (c3BadConfig.endLedger ≠ 0 → c3BadConfig.startLedger < c3BadConfig.endLedger) ∧
    exampleArchive.latestLedger = some 1000 ∧
    exampleArchive.checkpointFrequency = 64 ∧
    c3BadConfig.endLedger ≠ 0 ∧
    1000 + exampleArchive.checkpointFrequency * 2 < c3BadConfig.endLedger ∧
    (c3BadConfig.ValidateAndSetLedgerRange exampleArchive).2 ≠
      some RangeError.endBeyondNetwork ∧
    (c3BadConfig.ValidateAndSetLedgerRange exampleArchive).2 =
      some RangeError.startBeyondNetwork := by
  decide

/-- C4: a requested start ledger below 2 makes range resolution fail with
`startTooLow` regardless of the export mode, the requested end, and the
archive state — it is the first of the ordered checks, so it wins over any
other violation present in the same request. -/
theorem startTooLow_first (config : Config) (archive : Archive)
    (h : config.startLedger < 2) :
    config.ValidateAndSetLedgerRange archive = (config, some RangeError.startTooLow) := by
  unfold Config.ValidateAndSetLedgerRange
  rw [if_pos h]

def c4Config : Config :=
  { exampleConfig with startLedger := 1, endLedger := 0, mode := .scanFill }

/-- Witness for C4: start = 1 fails with `startTooLow` even though the same
request also has an unbounded end under scan-and-fill and an unavailable
archive. -/
theorem startTooLow_first_witness :
    c4Config.ValidateAndSetLedgerRange
        { latestLedger := none, checkpointFrequency := 0 } =
      (c4Config, some RangeError.startTooLow) :=
  startTooLow_first c4Config { latestLedger := none, checkpointFrequency := 0 }
    (by decide)

/-- C5: with start ≥ 2, a zero requested end under scan-and-fill fails with
`unboundedNotAllowed`, while a zero requested end under append never
produces `unboundedNotAllowed`. -/
theorem unboundedNotAllowed_iff_scanFill (config : Config) (archive : Archive)
    (h2 : 2 ≤ config.startLedger) (he : config.endLedger = 0) :
    (config.mode = Mode.scanFill →
      config.ValidateAndSetLedgerRange archive =
        (config, some RangeError.unboundedNotAllowed)) ∧
    (config.mode = Mode.append →
      (config.ValidateAndSetLedgerRange archive).2 ≠
        some RangeError.unboundedNotAllowed) := by
  unfold Config.ValidateAndSetLedgerRange
  constructor
  · intro hm
    rw [if_neg (by omega), if_pos ⟨hm, he⟩]
  · intro hm
    rw [if_neg (by omega), if_neg (by simp [hm]), if_neg (by simp [he])]
    rcases archive with ⟨lo, freq⟩
    cases lo with
    | none => simp
    | some latest =>
      dsimp only
      split_ifs <;> simp

def c5ScanConfig : Config :=
  { exampleConfig with startLedger := 5, endLedger := 0, mode := .scanFill }

def c5AppendConfig : Config :=
  { exampleConfig with startLedger := 5, endLedger := 0, mode := .append }

/-- Witness for C5: start = 5, end = 0 fails with `unboundedNotAllowed`
under scan-and-fill and passes that check under append. -/
theorem unboundedNotAllowed_iff_scanFill_witness :
    c5ScanConfig.ValidateAndSetLedgerRange exampleArchive =
      (c5ScanConfig, some RangeError.unboundedNotAllowed) ∧
    (c5AppendConfig.ValidateAndSetLedgerRange exampleArchive).2 ≠
      some RangeError.unboundedNotAllowed :=
  ⟨(unboundedNotAllowed_iff_scanFill c5ScanConfig exampleArchive (by decide) rfl).1 rfl,
   (unboundedNotAllowed_iff_scanFill c5AppendConfig exampleArchive (by decide) rfl).2 rfl⟩

/-- The passphrase baseline selected by the network switch of `processToml`
for a named preset (empty for no preset). -/
def presetPassphrase (network : String) : String :=
  if network = PubnetName then PublicNetworkPassphrase
  else if network = TestnetName then TestNetworkPassphrase
  else ""

/-- The archive-URL baseline selected by the network switch of
`processToml` for a named preset (empty for no preset). -/
def presetArchiveUrls (network : String) : List String :=
  if network = PubnetName then PublicNetworkHistoryArchiveUrls
  else if network = TestnetName then TestNetworkHistoryArchiveUrls
  else []

/-- The default captive-core payload installed by the network switch of
`processToml` for a named preset. -/
def presetCaptiveCoreConfig (network : String) : String :=
  if network = PubnetName then PubnetDefaultConfig
  else if network = TestnetName then TestnetDefaultConfig
  else ""

/-- C6: when the document names a network preset, the resolved passphrase
and archive URLs equal the preset's values whenever the document leaves the
field empty and equal the document's explicit value otherwise, and the
captive-core payload is the preset default unless an explicit toml path is
supplied, in which case the file's contents win. -/
theorem processToml_overlay (config cfg' : Config) (readFile : String → Option String)
    (hn : config.stellarCoreConfig.network = PubnetName ∨
          config.stellarCoreConfig.network = TestnetName)
    (hok : processToml config readFile = .ok cfg') :
    cfg'.stellarCoreConfig.networkPassphrase =
      (if config.stellarCoreConfig.networkPassphrase = "" then
        presetPassphrase config.stellarCoreConfig.network
      else config.stellarCoreConfig.networkPassphrase) ∧
    cfg'.stellarCoreConfig.historyArchiveUrls =
      (if config.stellarCoreConfig.historyArchiveUrls = [] then
        presetArchiveUrls config.stellarCoreConfig.network
      else config.stellarCoreConfig.historyArchiveUrls) ∧
    (config.stellarCoreConfig.captiveCoreTomlPath = "" →
      cfg'.serializedCaptiveCoreToml =
        presetCaptiveCoreConfig config.stellarCoreConfig.network) ∧
    (config.stellarCoreConfig.captiveCoreTomlPath ≠ "" →
      readFile config.stellarCoreConfig.captiveCoreTomlPath =
        some cfg'.serializedCaptiveCoreToml) := by
  obtain ⟨ap, ds, ⟨net, pass, urls, bin, ccpath, freq, sp⟩, ua, s, e, m, cv, t⟩ := config
  dsimp only at hn ⊢
  rcases hn with hn | hn <;> subst hn <;>
    by_cases hua : ua = "" <;> by_cases hpass : pass = "" <;>
      by_cases hurls : urls = [] <;> by_cases hpath : ccpath = "" <;>
        rcases hr : readFile ccpath with _ | contents <;>
          simp [processToml, hua, hpass, hurls, hpath, hr, PubnetName,
            TestnetName] at hok <;>
          subst hok <;>
          simp [presetPassphrase, presetArchiveUrls, presetCaptiveCoreConfig,
            PubnetName, TestnetName, hpass, hurls, hpath, hr]

def c6Config : Config :=
  { exampleConfig with
      stellarCoreConfig :=
        { exampleCoreConfig with
            network := "pubnet"
            networkPassphrase := "custom"
            historyArchiveUrls := []
            captiveCoreTomlPath := "" } }

def c6Resolved : Config :=
  { c6Config with
      userAgent := DefaultUserAgent
      stellarCoreConfig :=
        { c6Config.stellarCoreConfig with
            historyArchiveUrls := PublicNetworkHistoryArchiveUrls }
      serializedCaptiveCoreToml := PubnetDefaultConfig }

/-- Witness for C6: preset "pubnet" with an explicit passphrase and an empty
archive-URL list resolves to the explicit passphrase (override wins), the
preset's archive URLs and the preset's default captive-core payload. -/
theorem processToml_overlay_witness :
    processToml c6Config (fun _ => none) = .ok c6Resolved ∧
    c6Resolved.stellarCoreConfig.networkPassphrase = "custom" ∧
    c6Resolved.stellarCoreConfig.historyArchiveUrls =
      PublicNetworkHistoryArchiveUrls ∧
    c6Resolved.serializedCaptiveCoreToml = PubnetDefaultConfig := by
  have h := processToml_overlay c6Config c6Resolved (fun _ => none) (Or.inl rfl) rfl
  exact ⟨rfl, h.1.trans (by decide), h.2.1.trans (by decide),
    (h.2.2.1 rfl).trans (by decide)⟩

/-- C7: `processToml` fails with `incompleteNetworkConfig` iff the document
names no network preset and at least one of the passphrase, archive-URL
list and captive-core toml path is absent. -/
theorem processToml_incomplete_iff (config : Config) (readFile : String → Option String) :
    processToml config readFile = .error ConfigError.incompleteNetworkConfig ↔
      (config.stellarCoreConfig.network = "" ∧
        (config.stellarCoreConfig.historyArchiveUrls = [] ∨
         config.stellarCoreConfig.networkPassphrase = "" ∨
         config.stellarCoreConfig.captiveCoreTomlPath = "")) := by
  obtain ⟨ap, ds, ⟨net, pass, urls, bin, ccpath, freq, sp⟩, ua, s, e, m, cv, t⟩ := config
  dsimp only
  by_cases hua : ua = "" <;> by_cases hnet : net = "" <;>
    by_cases hp : net = PubnetName <;> by_cases ht : net = TestnetName <;>
      by_cases hpass : pass = "" <;> by_cases hurls : urls = [] <;>
        by_cases hpath : ccpath = "" <;>
          rcases hr : readFile ccpath with _ | contents <;>
            simp_all [processToml, PubnetName, TestnetName]

set_option maxHeartbeats 1600000 in
/-- C8: datastore validation succeeds iff the kind is known, its
kind-specific required parameter is present and both partitioning-schema
fields are strictly positive; otherwise it returns `missingKind` for an
empty kind, `missingParameter` for an absent required parameter,
`unsupportedKind` for an unknown kind and `invalidSchema` for a zero schema
field. -/
theorem dataStoreConfig_validate_iff (c : DataStoreConfig) :
    (c.Validate = none ↔
      ((∃ p, requiredParamName c.dsType = some p ∧ (c.params.lookup p).isSome) ∧
       0 < c.schema.ledgersPerFile ∧ 0 < c.schema.filesPerPartition)) ∧
    (c.dsType = "" → c.Validate = some ValidationError.missingKind) ∧
    (∀ p, requiredParamName c.dsType = some p → c.params.lookup p = none →
      c.Validate = some (ValidationError.missingParameter p)) ∧
    (c.dsType ≠ "" → requiredParamName c.dsType = none →
      c.Validate = some (ValidationError.unsupportedKind c.dsType)) ∧
    (∀ p, requiredParamName c.dsType = some p → (c.params.lookup p).isSome →
      c.schema.ledgersPerFile = 0 →
      c.Validate = some (ValidationError.invalidSchema "ledgers_per_file")) ∧
    (∀ p, requiredParamName c.dsType = some p → (c.params.lookup p).isSome →
      0 < c.schema.ledgersPerFile → c.schema.filesPerPartition = 0 →
      c.Validate = some (ValidationError.invalidSchema "files_per_partition")) := by
  obtain ⟨ty, ps, ⟨lpf, fpp⟩⟩ := c
  dsimp only
  by_cases h0 : ty = ""
  · subst h0
    simp [DataStoreConfig.Validate, requiredParamName]
  · by_cases hg : ty = "GCS"
    · subst hg
      by_cases hlg : (ps.lookup "destination_bucket_path").isSome <;>
        by_cases hlpf : lpf = 0 <;> by_cases hfpp : fpp = 0 <;>
          simp_all [DataStoreConfig.Validate, requiredParamName,
            Option.isSome_iff_ne_none, Nat.pos_iff_ne_zero]
    · by_cases hs3 : ty = "S3"
      · subst hs3
        by_cases hls : (ps.lookup "bucket_name").isSome <;>
          by_cases hlpf : lpf = 0 <;> by_cases hfpp : fpp = 0 <;>
            simp_all [DataStoreConfig.Validate, requiredParamName,
              Option.isSome_iff_ne_none, Nat.pos_iff_ne_zero]
      · by_cases hf : ty = "FS"
        · subst hf
          by_cases hlf : (ps.lookup "base_path").isSome <;>
            by_cases hlpf : lpf = 0 <;> by_cases hfpp : fpp = 0 <;>
              simp_all [DataStoreConfig.Validate, requiredParamName,
                Option.isSome_iff_ne_none, Nat.pos_iff_ne_zero]
        · simp_all [DataStoreConfig.Validate, requiredParamName]

def c8Config : DataStoreConfig :=
  { dsType := "GCS", params := [], schema := exampleSchema }

/-- Witness for C8: kind "GCS" with no destination-bucket-path parameter
fails with `missingParameter`. -/
theorem dataStoreConfig_validate_iff_witness :
    c8Config.Validate =
      some (ValidationError.missingParameter "destination_bucket_path") :=
  (dataStoreConfig_validate_iff c8Config).2.2.1 "destination_bucket_path" rfl rfl

/-- C9: the captive-core config builder fails with `noBinaryPath` iff both
the configured binary path and the override are empty, and when the
configured path is empty and the override is set, the override becomes the
binary path of the produced captive-core configuration. -/
theorem generateCaptiveCoreConfig_binaryPath (config : Config)
    (coreBinFromPath : String) (coreBuildVersion makeToml : String → Option String) :
    (config.GenerateCaptiveCoreConfig coreBinFromPath coreBuildVersion makeToml =
        .error BuildError.noBinaryPath ↔
      (config.stellarCoreConfig.stellarCoreBinaryPath = "" ∧ coreBinFromPath = "")) ∧
    (∀ cfg' ccc,
      config.stellarCoreConfig.stellarCoreBinaryPath = "" → coreBinFromPath ≠ "" →
      config.GenerateCaptiveCoreConfig coreBinFromPath coreBuildVersion makeToml =
        .ok (cfg', ccc) →
      ccc.binaryPath = coreBinFromPath) := by
  obtain ⟨ap, ds, ⟨net, pass, urls, bin, ccpath, freq, sp⟩, ua, s, e, m, cv, t⟩ := config
  dsimp only
  constructor
  · by_cases hbin : bin = "" <;> by_cases hover : coreBinFromPath = ""
    · simp [Config.GenerateCaptiveCoreConfig, hbin, hover]
    · rcases hv : coreBuildVersion coreBinFromPath with _ | v <;>
        rcases ht : makeToml t with _ | toml <;>
          simp [Config.GenerateCaptiveCoreConfig, hbin, hover, hv, ht]
    · rcases hv : coreBuildVersion bin with _ | v <;>
        rcases ht : makeToml t with _ | toml <;>
          simp [Config.GenerateCaptiveCoreConfig, hbin, hover, hv, ht]
    · rcases hv : coreBuildVersion bin with _ | v <;>
        rcases ht : makeToml t with _ | toml <;>
          simp [Config.GenerateCaptiveCoreConfig, hbin, hover, hv, ht]
  · intro cfg' ccc hbin hover hok
    rcases hv : coreBuildVersion coreBinFromPath with _ | v <;>
      rcases ht : makeToml t with _ | toml <;>
        simp [Config.GenerateCaptiveCoreConfig, hbin, hover, hv, ht] at hok <;>
        obtain ⟨h1, h2⟩ := hok <;> subst h2 <;> simp [hbin]

def c9Probe : String → Option String := fun _ => some "v21.0.0"

def c9MakeToml : String → Option String := fun payload => some payload

def c9ResolvedConfig : Config :=
  { exampleConfig with
      stellarCoreConfig :=
        { exampleConfig.stellarCoreConfig with
            stellarCoreBinaryPath := "/usr/bin/stellar-core" }
      coreVersion := "v21.0.0" }

def c9ResolvedCore : CaptiveCoreConfig :=
  { binaryPath := "/usr/bin/stellar-core"
    networkPassphrase := "p"
    historyArchiveUrls := ["u"]
    checkpointFrequency := 64
    toml := ""
    userAgent := ""
    useDB := true
    storagePath := "" }

/-- Witness for C9: with an empty configured path, no override fails with
`noBinaryPath`, while the override "/usr/bin/stellar-core" becomes the
binary path of the produced captive-core configuration. -/
theorem generateCaptiveCoreConfig_binaryPath_witness :
    exampleConfig.GenerateCaptiveCoreConfig "" c9Probe c9MakeToml =
      .error BuildError.noBinaryPath ∧
    c9ResolvedCore.binaryPath = "/usr/bin/stellar-core" :=
  ⟨(generateCaptiveCoreConfig_binaryPath exampleConfig "" c9Probe c9MakeToml).1.mpr
      ⟨rfl, rfl⟩,
   (generateCaptiveCoreConfig_binaryPath exampleConfig "/usr/bin/stellar-core"
      c9Probe c9MakeToml).2 c9ResolvedConfig c9ResolvedCore rfl (by decide) rfl⟩

/-- C10: range resolution is atomic on failure — whenever
`ValidateAndSetLedgerRange` returns an error, the start ledger, end ledger
and mode of the returned config are exactly the values they held before the
call. -/
theorem validateAndSetLedgerRange_atomic (config cfg' : Config) (archive : Archive)
    (e : RangeError)
    (h : config.ValidateAndSetLedgerRange archive = (cfg', some e)) :
    cfg'.startLedger = config.startLedger ∧ cfg'.endLedger = config.endLedger ∧
    cfg'.mode = config.mode := by
  unfold Config.ValidateAndSetLedgerRange at h
  rcases archive with ⟨lo, freq⟩
  have hc : cfg' = config := by
    split_ifs at h
    · exact (congrArg Prod.fst h).symm
    · exact (congrArg Prod.fst h).symm
    · exact (congrArg Prod.fst h).symm
    · cases lo with
      | none => exact (congrArg Prod.fst h).symm
      | some latest =>
        dsimp only at h
        split_ifs at h
        · exact (congrArg Prod.fst h).symm
        · exact (congrArg Prod.fst h).symm
        · exact absurd (congrArg Prod.snd h) (by simp)
  subst hc
  exact ⟨rfl, rfl, rfl⟩

/-- Witness for C10: a failing call (start = 1, `startTooLow`) leaves start,
end and mode untouched. -/
theorem validateAndSetLedgerRange_atomic_witness :
    (c4Config.ValidateAndSetLedgerRange exampleArchive).1.startLedger =
        c4Config.startLedger ∧
    (c4Config.ValidateAndSetLedgerRange exampleArchive).1.endLedger =
        c4Config.endLedger ∧
    (c4Config.ValidateAndSetLedgerRange exampleArchive).1.mode = c4Config.mode :=
  validateAndSetLedgerRange_atomic c4Config
    (c4Config.ValidateAndSetLedgerRange exampleArchive).1 exampleArchive
    RangeError.startTooLow (by decide)

end Galexie
